import Mathlib

/-!
Verification of the Streamlit page `app.py` ("Equity Research — News & Summaries").

The page is pure orchestration glue: it reads sidebar inputs, runs a
button-driven fetch-and-summarize flow, renders results, and keeps a
per-session history list. We embed one Streamlit script execution
(one user interaction / rerun) as a pure function `fullStep` from

  * an environment `Env` of external helpers imported from
    `langchain_config` (`get_news_articles`, `get_summary_cached_module`,
    `estimate_tokens`), modelled as oracles that either return a value or
    raise an exception (`Except String _`),
  * the per-interaction inputs `Inputs` (which buttons were pressed, the
    `max_articles` slider, the unused `Cache TTL (minutes)` number input),
  * and the session state `AppState` (the `history` list and the
    `query_input` text-input value),

to a trace of observable UI events (`List Event`) together with the new
session state. Pure markdown rendering (the article cards of lines
124-133, captions, footers) carries no state and is elided; every state
change, external call, and user-visible message/widget of the script is
an `Event` or a state field.
-/

namespace EquityApp

/-- An article dictionary as consumed by the page: the fields the script
reads (`title`, `description`; the card-only fields are kept for
completeness). `None` models an absent/`None` dict entry. -/
structure Article where
  title : Option String
  description : Option String
  sourceName : Option String
  url : Option String
  publishedAt : Option String
deriving Repr, DecidableEq

/-- One record of the session history: `{"query": query, "summary": summary}`
(app.py line 167). -/
structure Record where
  query : String
  summary : String
deriving Repr, DecidableEq

/-- The per-session Streamlit state the script uses: `st.session_state.history`
(absent is modelled as `[]`) and the `query_input` text-input value. -/
structure AppState where
  history : List Record
  queryInput : String
deriving Repr, DecidableEq

/-- The external helpers from `langchain_config` used by the run flow,
as oracles: `Except.error e` models the call raising an exception whose
message is `e`. -/
structure Env where
  get_news_articles : String → Nat → Except String (List Article)
  get_summary_cached_module : String → Nat → Except String String
  estimate_tokens : String → Except String Nat

/-- Which buttons report `True` on this interaction, and which sidebar
`Load:` button (by index) was pressed, if any. -/
structure Buttons where
  run : Bool
  clear_all : Bool
  load_pressed : Option Nat
  clear_streamlit : Bool
deriving Repr, DecidableEq

/-- The per-interaction sidebar inputs the script reads. -/
structure Inputs where
  buttons : Buttons
  max_articles : Nat
  cache_ttl_minutes : Nat
deriving Repr, DecidableEq

/-- Observable UI effects of one script execution, in program order. -/
inductive Event where
  | warnEmptyQuery
  | fetchCall (query : String) (max_articles : Nat)
  | errorFetch (msg : String)
  | infoNoArticles
  | foundArticles (n : Nat) (query : String)
  | infoTokens (n : Nat)
  | warnHighTokens
  | summarizeCall (query : String) (max_articles : Nat)
  | errorSummarize (msg : String)
  | displaySummary (s : String)
  | downloadSummary (s : String)
  | historyInsert (query : String) (summary : String)
  | showRecentSelect (options : List String)
  | clearUiCache
  | clearModuleCache
  | successMsg (msg : String)
  | loadQuery (q : String)
  | rerun
deriving Repr, DecidableEq

/-- Python `s.strip()`: drop ASCII whitespace from both ends. -/
def pyStrip (s : String) : String :=
  String.mk (((s.data.dropWhile Char.isWhitespace).reverse.dropWhile
    Char.isWhitespace).reverse)

/-- The run-flow guard `not query or not query.strip()` (app.py line 104). -/
def emptyQuery (q : String) : Bool :=
  q == "" || pyStrip q == ""

/-- `(a.get("title") or "") + " — " + (a.get("description") or "")`
(app.py line 137). -/
def articleLine (a : Article) : String :=
  (a.title.getD "") ++ " — " ++ (a.description.getD "")

/-- `concat_text = "\n\n".join(...)` (app.py lines 136-138). -/
def concatText (articles : List Article) : String :=
  String.intercalate "\n\n" (articles.map articleLine)

/-- The `ttl` argument of the `st.cache_data` decorator on
`get_summary_cached_ui` (app.py line 34): `60 * 60 * 24` seconds. -/
def get_summary_cached_ui_ttl_seconds : Nat := 60 * 60 * 24

/-- `get_summary_cached_ui` (app.py lines 34-37): the `st.cache_data`
wrapper around the module helper. Its body ignores `ttl_override` and
returns `get_summary_cached_module(query, max_articles)`; since the
wrapped call is a deterministic function of its arguments, a cache hit
and a fresh call yield the same value, so the memo table itself is not
state we need to carry. -/
def get_summary_cached_ui (env : Env) (query : String) (max_articles : Nat)
    (ttl_override : Option Nat) : Except String String :=
  env.get_summary_cached_module query max_articles

/-- Events of the article fetch `try`/`except` (app.py lines 108-115):
the call itself, plus `st.error` when it raised. -/
def fetchEvents (q : String) (m : Nat) (r : Except String (List Article)) :
    List Event :=
  match r with
  | Except.ok _ => [Event.fetchCall q m]
  | Except.error e => [Event.fetchCall q m, Event.errorFetch e]

/-- The value `articles` holds after the fetch `try`/`except`: the result
list, or `[]` when the call raised (app.py line 115). -/
def fetchedArticles (r : Except String (List Article)) : List Article :=
  match r with
  | Except.ok arts => arts
  | Except.error _ => []

/-- The token-estimate `try`/`except` (app.py lines 139-145): on success
an `st.info`, plus an `st.warning` when the estimate exceeds 8000; an
exception is only logged. -/
def tokenEvents (env : Env) (articles : List Article) : List Event :=
  match env.estimate_tokens (concatText articles) with
  | Except.ok n =>
      Event.infoTokens n :: (if n > 8000 then [Event.warnHighTokens] else [])
  | Except.error _ => []

/-- The summarize `try`/`except` and the `if summary:` block
(app.py lines 148-167): on an exception `summary = None`; a falsy
(empty) summary is not displayed and not saved; otherwise the summary
is displayed, offered for download, and the record
`{"query": query, "summary": summary}` is inserted at index 0 of the
history. Returns the events and the new history. -/
def summarySection (env : Env) (q : String) (m : Nat)
    (history : List Record) : List Event × List Record :=
  match get_summary_cached_ui env q m none with
  | Except.error e =>
      ([Event.summarizeCall q m, Event.errorSummarize e], history)
  | Except.ok summary =>
      if summary == "" then
        ([Event.summarizeCall q m], history)
      else
        ([Event.summarizeCall q m, Event.displaySummary summary,
          Event.downloadSummary summary, Event.historyInsert q summary],
         Record.mk q summary :: history)

/-- The button-driven run flow (app.py lines 103-167), entered when
`run_button` is true: warn on an empty/whitespace query; otherwise fetch
(exceptions caught, `articles = []`), stop with `st.info` when no
articles, else show the found-count, the token estimate, and run the
summarize section. Returns the events and the new history. -/
def runFlow (env : Env) (q : String) (m : Nat) (history : List Record) :
    List Event × List Record :=
  if emptyQuery q then
    ([Event.warnEmptyQuery], history)
  else if (fetchedArticles (env.get_news_articles q m)).isEmpty then
    (fetchEvents q m (env.get_news_articles q m) ++ [Event.infoNoArticles],
     history)
  else
    (fetchEvents q m (env.get_news_articles q m) ++
      (Event.foundArticles
          (fetchedArticles (env.get_news_articles q m)).length q ::
        tokenEvents env (fetchedArticles (env.get_news_articles q m))) ++
      (summarySection env q m history).1,
     (summarySection env q m history).2)

/-- `clear_all` button (app.py line 82):
`st.button(...) and (st.cache_data.clear(), clear_module_cache(), st.success("Cleared caches."))`. -/
def clearAllEvents (pressed : Bool) : List Event :=
  if pressed then
    [Event.clearUiCache, Event.clearModuleCache, Event.successMsg "Cleared caches."]
  else []

/-- Options of the "Recent queries" selectbox (app.py line 98):
`[h['query'] for h in st.session_state.history[:10]]`. -/
def recentQueriesOptions (history : List Record) : List String :=
  (history.take 10).map Record.query

/-- The `st.selectbox` display (app.py lines 96-99): shown only when a
nonempty history exists; selecting does nothing (`pass`). -/
def selectEvents (history : List Record) : List Event :=
  if history.isEmpty then []
  else [Event.showRecentSelect (recentQueriesOptions history)]

/-- Labels of the sidebar history buttons (app.py lines 173-174):
`f"Load: {h['query']}"` for `h` in `history[:10]`. -/
def sidebarLoadLabels (history : List Record) : List String :=
  (history.take 10).map (fun h => "Load: " ++ h.query)

/-- The sidebar history loop (app.py lines 173-177): a button exists for
each of the first ten records; pressing one sets
`st.session_state['query_input']` to that record's query and calls
`st.experimental_rerun()`, which stops the script. Returns the events
and, when a button fired, the loaded query. -/
def loadSection (history : List Record) (pressed : Option Nat) :
    List Event × Option String :=
  match pressed with
  | none => ([], none)
  | some i =>
      match (history.take 10)[i]? with
      | none => ([], none)
      | some h => ([Event.loadQuery h.query, Event.rerun], some h.query)

/-- The guard `if "history" in st.session_state and st.session_state.history:`
around the sidebar history section (app.py line 170): the section runs
only on a nonempty history (over the post-run history). -/
def loadPart (history1 : List Record) (pressed : Option Nat) :
    List Event × Option String :=
  if history1.isEmpty then ([], none) else loadSection history1 pressed

/-- The developer panel's `clear_streamlit` handler (app.py lines
180-187), skipped when `st.experimental_rerun()` already stopped the
script. -/
def devPart (stopped : Bool) (pressed : Bool) : List Event :=
  if stopped then []
  else if pressed then
    [Event.clearUiCache, Event.successMsg "Cleared Streamlit cache."]
  else []

/-- The `if run_button:` guard (app.py line 103) around the run flow. -/
def runPart (env : Env) (run : Bool) (q : String) (m : Nat)
    (history : List Record) : List Event × List Record :=
  if run then runFlow env q m history else ([], history)

/-- One execution of the script for one user interaction, in program
order: the sidebar `clear_all` handler (line 82), the "Recent queries"
selectbox (lines 96-99), the run flow (lines 103-167), the sidebar
history/load section over the post-run history (lines 170-177), and —
unless a load button stopped the script with a rerun — the developer
panel's `clear_streamlit` handler (lines 180-187). Returns the event
trace and the new session state. -/
def fullStep (env : Env) (inp : Inputs) (st : AppState) :
    List Event × AppState :=
  let runRes :=
    runPart env inp.buttons.run st.queryInput inp.max_articles st.history
  let loadRes := loadPart runRes.2 inp.buttons.load_pressed
  (clearAllEvents inp.buttons.clear_all ++ selectEvents st.history ++
    runRes.1 ++ loadRes.1 ++
    devPart (loadRes.2).isSome inp.buttons.clear_streamlit,
   AppState.mk runRes.2 ((loadRes.2).getD st.queryInput))

/-- Iterating `fullStep` over a chronological list of interactions. -/
def runAll (env : Env) (inps : List Inputs) (st : AppState) : AppState :=
  match inps with
  | [] => st
  | i :: rest => runAll env rest (fullStep env i st).2

/-- Is this event a call to `get_news_articles`? -/
def isFetchCall : Event → Bool
  | Event.fetchCall _ _ => true
  | _ => false

/-- Is this event a call to the summarization wrapper? -/
def isSummarizeCall : Event → Bool
  | Event.summarizeCall _ _ => true
  | _ => false

/-- Is this event an external API call (fetch or summarize)? -/
def isApiCall (e : Event) : Bool := isFetchCall e || isSummarizeCall e

/-! ### Concrete environments, inputs and states for witnesses -/

/-- An environment in which every helper succeeds: the fetch returns one
article, the summarizer returns `"the summary"`. -/
def envA : Env :=
  { get_news_articles := fun _ _ =>
      Except.ok [Article.mk (some "T") (some "D") none none none],
    get_summary_cached_module := fun _ _ => Except.ok "the summary",
    estimate_tokens := fun s => Except.ok s.length }

/-- Like `envA`, but `get_news_articles` raises `"boom"`. -/
def envFetchErr : Env :=
  { get_news_articles := fun _ _ => Except.error "boom",
    get_summary_cached_module := fun _ _ => Except.ok "the summary",
    estimate_tokens := fun s => Except.ok s.length }

/-- Fresh session with the query `"aapl"` typed in. -/
def st0 : AppState := AppState.mk [] "aapl"

/-- Session with a whitespace-only query typed in. -/
def stWs : AppState := AppState.mk [] "   "

/-- Session with one history record already present. -/
def stH : AppState := AppState.mk [Record.mk "q1" "s1"] "aapl"

/-- No button pressed. -/
def inpNone : Inputs := Inputs.mk (Buttons.mk false false none false) 20 60

/-- Only the Run button pressed. -/
def inpRun : Inputs := Inputs.mk (Buttons.mk true false none false) 20 60

/-- Only the combined cache-clear button (app.py line 82) pressed. -/
def inpClearAll : Inputs := Inputs.mk (Buttons.mk false true none false) 20 60

/-- Only the first sidebar `Load:` button (app.py line 174) pressed. -/
def inpLoad : Inputs := Inputs.mk (Buttons.mk false false (some 0) false) 20 60

/-- Only the developer-panel cache-clear button (app.py line 182) pressed. -/
def inpClearSt : Inputs := Inputs.mk (Buttons.mk false false none true) 20 60

/-! ### Helper lemmas -/

/-- The session history after one interaction is what the run flow left
(only the run flow touches `st.session_state.history`). -/
lemma fullStep_history (env : Env) (inp : Inputs) (st : AppState) :
    (fullStep env inp st).2.history =
      (runPart env inp.buttons.run st.queryInput inp.max_articles
        st.history).2 := rfl

/-- The run flow either leaves the history alone or conses one record. -/
lemma runFlow_front_insert (env : Env) (q : String) (m : Nat)
    (h : List Record) :
    (runFlow env q m h).2 = h ∨
      ∃ r, (runFlow env q m h).2 = r :: h := by
  unfold runFlow
  split
  · exact Or.inl rfl
  · split
    · exact Or.inl rfl
    · unfold summarySection
      split
      · exact Or.inl rfl
      · split
        · exact Or.inl rfl
        · exact Or.inr ⟨_, rfl⟩

/-- One interaction either leaves the history alone or conses one record. -/
lemma fullStep_front_insert (env : Env) (inp : Inputs) (st : AppState) :
    (fullStep env inp st).2.history = st.history ∨
      ∃ r, (fullStep env inp st).2.history = r :: st.history := by
  rw [fullStep_history]
  unfold runPart
  cases hr : inp.buttons.run
  · simp
  · simpa using runFlow_front_insert env st.queryInput inp.max_articles st.history

/-- Across any sequence of interactions the initial history survives as a
suffix: new records only ever pile up in front of it. -/
lemma runAll_suffix (env : Env) (inps : List Inputs) (st : AppState) :
    ∃ added, (runAll env inps st).history = added ++ st.history := by
  induction inps generalizing st with
  | nil => exact ⟨[], rfl⟩
  | cons i rest ih =>
      rcases ih (fullStep env i st).2 with ⟨a2, ha2⟩
      rcases fullStep_front_insert env i st with h1 | ⟨r, h1⟩
      · exact ⟨a2, by simpa [runAll, h1] using ha2⟩
      · exact ⟨a2 ++ [r], by simp [runAll, ha2, h1]⟩

lemma filter_api_clearAll (b : Bool) :
    (clearAllEvents b).filter isApiCall = [] := by
  cases b <;> rfl

lemma filter_api_select (h : List Record) :
    (selectEvents h).filter isApiCall = [] := by
  unfold selectEvents
  split <;> rfl

lemma filter_api_load (h : List Record) (p : Option Nat) :
    (loadSection h p).1.filter isApiCall = [] := by
  unfold loadSection
  rcases p with _ | i
  · rfl
  · rcases hg : (h.take 10)[i]? with _ | r <;> simp [hg, isApiCall,
      isFetchCall, isSummarizeCall, List.filter]

lemma filter_api_loadPart (h : List Record) (p : Option Nat) :
    (loadPart h p).1.filter isApiCall = [] := by
  unfold loadPart
  split
  · rfl
  · exact filter_api_load h p

lemma filter_api_devPart (stopped pressed : Bool) :
    (devPart stopped pressed).filter isApiCall = [] := by
  cases stopped <;> cases pressed <;> rfl

lemma filter_api_tokens (env : Env) (articles : List Article) :
    (tokenEvents env articles).filter isApiCall = [] := by
  unfold tokenEvents
  rcases env.estimate_tokens (concatText articles) with e | n
  · rfl
  · by_cases hn : n > 8000 <;> simp [hn, isApiCall, isFetchCall,
      isSummarizeCall, List.filter]

lemma filter_api_fetchEvents (q : String) (m : Nat)
    (r : Except String (List Article)) :
    (fetchEvents q m r).filter isApiCall = [Event.fetchCall q m] := by
  rcases r with e | arts <;> rfl

lemma filter_api_summary (env : Env) (q : String) (m : Nat)
    (h : List Record) :
    (summarySection env q m h).1.filter isApiCall =
      [Event.summarizeCall q m] := by
  unfold summarySection
  rcases get_summary_cached_ui env q m none with e | s
  · rfl
  · by_cases hs : s == "" <;> simp [hs, isApiCall, isFetchCall,
      isSummarizeCall, List.filter]

/-- The run flow makes no API call (empty query), just the fetch call
(no articles), or the fetch call followed by the summarize call. -/
lemma runFlow_api_shape (env : Env) (q : String) (m : Nat)
    (h : List Record) :
    (runFlow env q m h).1.filter isApiCall = [] ∨
      (runFlow env q m h).1.filter isApiCall = [Event.fetchCall q m] ∨
      (runFlow env q m h).1.filter isApiCall =
        [Event.fetchCall q m, Event.summarizeCall q m] := by
  unfold runFlow
  split
  · exact Or.inl rfl
  · split
    · refine Or.inr (Or.inl ?_)
      simp [List.filter_append, filter_api_fetchEvents, isApiCall,
        isFetchCall, isSummarizeCall, List.filter]
    · refine Or.inr (Or.inr ?_)
      simp [List.filter_append, filter_api_fetchEvents, filter_api_summary,
        filter_api_tokens, isApiCall, isFetchCall, isSummarizeCall,
        List.filter]

/-- The API calls of a whole interaction are exactly those of the run
flow (no other part of the script calls fetch or summarize). -/
lemma fullStep_api (env : Env) (inp : Inputs) (st : AppState) :
    (fullStep env inp st).1.filter isApiCall =
      ((runPart env inp.buttons.run st.queryInput inp.max_articles
        st.history).1).filter isApiCall := by
  simp only [fullStep, List.filter_append, filter_api_clearAll,
    filter_api_select, filter_api_loadPart, filter_api_devPart,
    List.append_nil, List.nil_append]

/-- Guarded version of `runFlow_api_shape`. -/
lemma runPart_api_shape (env : Env) (run : Bool) (q : String) (m : Nat)
    (h : List Record) :
    (runPart env run q m h).1.filter isApiCall = [] ∨
      (runPart env run q m h).1.filter isApiCall = [Event.fetchCall q m] ∨
      (runPart env run q m h).1.filter isApiCall =
        [Event.fetchCall q m, Event.summarizeCall q m] := by
  cases run
  · exact Or.inl rfl
  · simpa [runPart] using runFlow_api_shape env q m h

/-- Every event of the run flow appears in the interaction's trace. -/
lemma mem_fullStep_of_mem_runPart (env : Env) (inp : Inputs) (st : AppState)
    (e : Event)
    (he : e ∈ (runPart env inp.buttons.run st.queryInput inp.max_articles
      st.history).1) :
    e ∈ (fullStep env inp st).1 := by
  simp only [fullStep, List.mem_append]
  tauto

/-! ### Claim theorems -/

/-- C1: on every successful run — Run pressed, query non-empty (after
stripping), fetch returned a non-empty article list, summarization
returned a non-empty summary — exactly one record holding that query and
that summary is prepended to the session history. -/
theorem successful_run_prepends_exactly_one_record
    (env : Env) (inp : Inputs) (st : AppState) (arts : List Article)
    (s : String)
    (hrun : inp.buttons.run = true)
    (hq : emptyQuery st.queryInput = false)
    (hfetch : env.get_news_articles st.queryInput inp.max_articles =
      Except.ok arts)
    (harts : arts ≠ [])
    (hsum : env.get_summary_cached_module st.queryInput inp.max_articles =
      Except.ok s)
    (hs : s ≠ "") :
    (fullStep env inp st).2.history =
      Record.mk st.queryInput s :: st.history := by
  rw [fullStep_history, hrun]
  rcases arts with _ | ⟨a, as⟩
  · exact absurd rfl harts
  · simp [runPart, runFlow, hq, hfetch, fetchedArticles, summarySection,
      get_summary_cached_ui, hsum, hs]

/-- C1 witness: a concrete successful run on a fresh session. -/
theorem successful_run_prepends_exactly_one_record_witness :
    (fullStep envA inpRun st0).2.history =
      Record.mk "aapl" "the summary" :: ([] : List Record) :=
  successful_run_prepends_exactly_one_record envA inpRun st0
    [Article.mk (some "T") (some "D") none none none] "the summary"
    rfl (by decide) rfl (by decide) rfl (by decide)

/-- C2: every interaction either leaves the history unchanged or inserts
the new record at the front, so across any sequence of interactions the
earlier records survive, in order, behind the newer ones
(most-recent-first ordering). -/
theorem history_most_recent_first
    (env : Env) (inp : Inputs) (st : AppState) (inps : List Inputs) :
    ((fullStep env inp st).2.history = st.history ∨
      ∃ r, (fullStep env inp st).2.history = r :: st.history) ∧
    ∃ added, (runAll env inps st).history = added ++ st.history :=
  ⟨fullStep_front_insert env inp st, runAll_suffix env inps st⟩

/-- C3: both displayed history widgets — the "Recent queries" selectbox
options and the sidebar `Load:` button labels — show exactly the first
ten records of the history, hence at most ten entries. -/
theorem displayed_history_capped_at_ten (h : List Record) :
    recentQueriesOptions h = (h.map Record.query).take 10 ∧
    (recentQueriesOptions h).length ≤ 10 ∧
    sidebarLoadLabels h = (h.map (fun r => "Load: " ++ r.query)).take 10 ∧
    (sidebarLoadLabels h).length ≤ 10 := by
  refine ⟨?_, ?_, ?_, ?_⟩
  · simp [recentQueriesOptions, List.map_take]
  · simp only [recentQueriesOptions, List.length_map, List.length_take]
    omega
  · simp [sidebarLoadLabels, List.map_take]
  · simp only [sidebarLoadLabels, List.length_map, List.length_take]
    omega

/-- C4 counterexample: more than one button-driven handler exists. Each
of the four button kinds — Run, the combined cache clear (line 82), a
sidebar `Load:` button (line 174), and the developer-panel cache clear
(line 182) — observably changes the interaction's outcome when pressed,
so the page does not have exactly one button-driven handler. -/
theorem four_button_handlers_observable :
    fullStep envA inpRun stH ≠ fullStep envA inpNone stH ∧
    fullStep envA inpClearAll stH ≠ fullStep envA inpNone stH ∧
    fullStep envA inpLoad stH ≠ fullStep envA inpNone stH ∧
    fullStep envA inpClearSt stH ≠ fullStep envA inpNone stH := by
  refine ⟨by decide, by decide, by decide, by decide⟩

/-- C4 (amended): the Run handler is the single button handler that
drives the fetch/summarize flow and modifies the history — with Run not
pressed the history is unchanged and no API call happens — while the
three auxiliary button handlers (cache clears and history load) also
exist and are observable. -/
theorem run_is_the_single_stateful_handler :
    (∀ (env : Env) (ca : Bool) (lp : Option Nat) (cs : Bool) (m t : Nat)
        (st : AppState),
      (fullStep env (Inputs.mk (Buttons.mk false ca lp cs) m t)
          st).2.history = st.history ∧
      ((fullStep env (Inputs.mk (Buttons.mk false ca lp cs) m t)
          st).1).filter isApiCall = []) ∧
    fullStep envA inpClearAll stH ≠ fullStep envA inpNone stH ∧
    fullStep envA inpLoad stH ≠ fullStep envA inpNone stH ∧
    fullStep envA inpClearSt stH ≠ fullStep envA inpNone stH := by
  refine ⟨?_, by decide, by decide, by decide⟩
  intro env ca lp cs m t st
  exact ⟨by rw [fullStep_history]; rfl, by rw [fullStep_api]; rfl⟩

/-- C5: on an interaction where the Run button was not pressed, neither
`get_news_articles` nor the summarization wrapper is ever called,
whatever other buttons were pressed. -/
theorem no_api_call_without_run_press
    (env : Env) (ca : Bool) (lp : Option Nat) (cs : Bool) (m t : Nat)
    (st : AppState) :
    ((fullStep env (Inputs.mk (Buttons.mk false ca lp cs) m t)
      st).1).filter isApiCall = [] := by
  rw [fullStep_api]
  rfl

/-- C6: on a run that fetched at least one article, the summary that is
displayed and saved is exactly the value the caching wrapper
`get_summary_cached_ui` returns, which is the value of the module helper
`get_summary_cached_module` at the entered query and selected
`max_articles`. -/
theorem displayed_summary_is_module_helper_value
    (env : Env) (inp : Inputs) (st : AppState) (arts : List Article)
    (s : String)
    (hrun : inp.buttons.run = true)
    (hq : emptyQuery st.queryInput = false)
    (hfetch : env.get_news_articles st.queryInput inp.max_articles =
      Except.ok arts)
    (harts : arts ≠ [])
    (hsum : env.get_summary_cached_module st.queryInput inp.max_articles =
      Except.ok s)
    (hs : s ≠ "") :
    Event.displaySummary s ∈ (fullStep env inp st).1 ∧
    Event.historyInsert st.queryInput s ∈ (fullStep env inp st).1 ∧
    get_summary_cached_ui env st.queryInput inp.max_articles none =
      Except.ok s := by
  rcases arts with _ | ⟨a, as⟩
  · exact absurd rfl harts
  refine ⟨?_, ?_, by simp [get_summary_cached_ui, hsum]⟩ <;>
    · apply mem_fullStep_of_mem_runPart
      rw [hrun]
      simp [runPart, runFlow, hq, hfetch, fetchedArticles, summarySection,
        get_summary_cached_ui, hsum, hs]

/-- C6 witness: a concrete successful run. -/
theorem displayed_summary_is_module_helper_value_witness :
    Event.displaySummary "the summary" ∈ (fullStep envA inpRun st0).1 ∧
    Event.historyInsert "aapl" "the summary" ∈ (fullStep envA inpRun st0).1 ∧
    get_summary_cached_ui envA "aapl" 20 none = Except.ok "the summary" :=
  displayed_summary_is_module_helper_value envA inpRun st0
    [Article.mk (some "T") (some "D") none none none] "the summary"
    rfl (by decide) rfl (by decide) rfl (by decide)

/-- C7: per interaction the external API calls are at most one fetch and
at most one summarization, and when the summarize call happens it
strictly follows the fetch call. -/
theorem one_fetch_then_one_summarize_per_interaction
    (env : Env) (inp : Inputs) (st : AppState) :
    (fullStep env inp st).1.filter isApiCall = [] ∨
      (fullStep env inp st).1.filter isApiCall =
        [Event.fetchCall st.queryInput inp.max_articles] ∨
      (fullStep env inp st).1.filter isApiCall =
        [Event.fetchCall st.queryInput inp.max_articles,
          Event.summarizeCall st.queryInput inp.max_articles] := by
  rw [fullStep_api]
  exact runPart_api_shape env inp.buttons.run st.queryInput
    inp.max_articles st.history

/-- C8: when the fetch raises, or the fetch succeeds with articles but
the summarization raises, an error message is shown and the session
history is unchanged. -/
theorem failed_run_shows_error_and_keeps_history
    (env : Env) (inp : Inputs) (st : AppState) (e : String)
    (hrun : inp.buttons.run = true)
    (hq : emptyQuery st.queryInput = false)
    (hfail : env.get_news_articles st.queryInput inp.max_articles =
        Except.error e ∨
      ∃ arts, env.get_news_articles st.queryInput inp.max_articles =
          Except.ok arts ∧ arts ≠ [] ∧
        env.get_summary_cached_module st.queryInput inp.max_articles =
          Except.error e) :
    (Event.errorFetch e ∈ (fullStep env inp st).1 ∨
      Event.errorSummarize e ∈ (fullStep env inp st).1) ∧
    (fullStep env inp st).2.history = st.history := by
  rcases hfail with hferr | ⟨arts, hfok, harts, hserr⟩
  · constructor
    · refine Or.inl (mem_fullStep_of_mem_runPart env inp st _ ?_)
      rw [hrun]
      simp [runPart, runFlow, hq, hferr, fetchedArticles, fetchEvents]
    · rw [fullStep_history, hrun]
      simp [runPart, runFlow, hq, hferr, fetchedArticles]
  · rcases arts with _ | ⟨a, as⟩
    · exact absurd rfl harts
    constructor
    · refine Or.inr (mem_fullStep_of_mem_runPart env inp st _ ?_)
      rw [hrun]
      simp [runPart, runFlow, hq, hfok, fetchedArticles, summarySection,
        get_summary_cached_ui, hserr]
    · rw [fullStep_history, hrun]
      simp [runPart, runFlow, hq, hfok, fetchedArticles, summarySection,
        get_summary_cached_ui, hserr]

/-- C8 witness: a concrete run whose fetch raises `"boom"`. -/
theorem failed_run_shows_error_and_keeps_history_witness :
    (Event.errorFetch "boom" ∈ (fullStep envFetchErr inpRun st0).1 ∨
      Event.errorSummarize "boom" ∈ (fullStep envFetchErr inpRun st0).1) ∧
    (fullStep envFetchErr inpRun st0).2.history = st0.history :=
  failed_run_shows_error_and_keeps_history envFetchErr inpRun st0 "boom"
    rfl (by decide) (Or.inl rfl)

/-- C9: pressing Run with an empty or whitespace-only query shows the
warning, makes no API call, and leaves the history unchanged. -/
theorem empty_query_warns_and_does_nothing
    (env : Env) (inp : Inputs) (st : AppState)
    (hrun : inp.buttons.run = true)
    (hq : emptyQuery st.queryInput = true) :
    Event.warnEmptyQuery ∈ (fullStep env inp st).1 ∧
    (fullStep env inp st).1.filter isApiCall = [] ∧
    (fullStep env inp st).2.history = st.history := by
  refine ⟨?_, ?_, ?_⟩
  · apply mem_fullStep_of_mem_runPart
    rw [hrun]
    simp [runPart, runFlow, hq]
  · rw [fullStep_api, hrun]
    simp [runPart, runFlow, hq, isApiCall, isFetchCall, isSummarizeCall,
      List.filter]
  · rw [fullStep_history, hrun]
    simp [runPart, runFlow, hq]

/-- C9 witness: Run pressed with a whitespace-only query. -/
theorem empty_query_warns_and_does_nothing_witness :
    Event.warnEmptyQuery ∈ (fullStep envA inpRun stWs).1 ∧
    (fullStep envA inpRun stWs).1.filter isApiCall = [] ∧
    (fullStep envA inpRun stWs).2.history = stWs.history :=
  empty_query_warns_and_does_nothing envA inpRun stWs rfl (by decide)

/-- C10: the `Cache TTL (minutes)` input and the `ttl_override` argument
of the caching wrapper are dead: two interactions differing only in them
produce identical traces and states, and the wrapper's actual
`st.cache_data` TTL is the constant 24 hours. -/
theorem cache_ttl_input_has_no_effect
    (env : Env) (b : Buttons) (m t1 t2 : Nat) (st : AppState) (q : String)
    (ma : Nat) (o1 o2 : Option Nat) :
    fullStep env (Inputs.mk b m t1) st = fullStep env (Inputs.mk b m t2) st ∧
    get_summary_cached_ui env q ma o1 = get_summary_cached_ui env q ma o2 ∧
    get_summary_cached_ui_ttl_seconds = 24 * 60 * 60 :=
  ⟨rfl, rfl, rfl⟩

end EquityApp
